import Mathlib

/-!
Shallow embedding of `src/modules/aws_controller.py` (class `AwsController`).

The controller is orchestration glue: every method sequences calls into
external collaborators (the AWS API via `aws_service`, terraform, packer,
the Splunk SDK, simulation controllers) and formats output.  We model each
method as a pure function from a configuration and an environment of
external-service oracles to a trace of effects (`List Effect`), in the
order the Python code performs them.  `sys.exit` truncates a trace: no
effect after an `exitProcess` is performed, which the sequencing operator
`seq` encodes.
-/

namespace AttackRange

/-- Fields of an EC2 instance record that `AwsController` reads:
`instance[Tags][0][Value]`, `instance[State][Name]` and
`instance[NetworkInterfaces][0][Association][PublicIp]`. -/
structure Ec2Instance where
  tagValue : String
  stateName : String
  publicIp : String
deriving Repr, DecidableEq

/-- One entry of `config[windows_servers]`, keeping only the `image` key
that `build` reads. -/
structure WindowsServer where
  image : String
deriving Repr, DecidableEq

/-- One entry of `config[linux_servers]`, keeping only the `image` key
that `build` reads. -/
structure LinuxServer where
  image : String
deriving Repr, DecidableEq

/-- The slice of the `config` dict that `AwsController` reads. -/
structure Config where
  region : String                      -- config[aws][region]
  private_key_path : String            -- config[aws][private_key_path]
  splunk_image : String                -- config[splunk_server][image]
  install_es : String                  -- config[splunk_server][install_es]
  windows_servers : List WindowsServer -- config[windows_servers]
  linux_servers : List LinuxServer     -- config[linux_servers]
  nginx_server_flag : String           -- config[nginx_server][nginx_server]
  nginx_image : String                 -- config[nginx_server][image]
  key_name : String                    -- config[general][key_name]
  attack_range_name : String           -- config[general][attack_range_name]
  attack_range_password : String       -- config[general][attack_range_password]
  prelude_flag : String                -- config[simulation][prelude]
deriving Repr, DecidableEq

/-- Result of `aws_service.ami_available_other_region`, when an image was
found: a dict with keys `image_id` and `region`. -/
structure FoundImage where
  image_id : String
  region : String
deriving Repr, DecidableEq

/-- Oracles for the external collaborators the controller calls into:
the AWS service helpers, the terraform return codes and the prelude
session-token file. -/
structure Env where
  check_region : String → Bool
  ami_available : String → String → Bool
  ami_available_other_region : String → Option FoundImage
  get_all_instances : String → String → String → List Ec2Instance
  get_single_instance_public_ip : String → String → String → String → String
  terraform_apply_rc : Int
  terraform_destroy_rc : Int
  prelude_token : String

/-- Observable effects of the controller, in program order.  Logger calls,
process exit, calls into external collaborators, and console printing. -/
inductive Effect where
  | logInfo (msg : String)
  | logError (msg : String)
  | exitProcess (code : Nat)
  | queryInstances (key_name attack_range_name region : String)
  | copyImage (image image_id source_region target_region : String)
  | packerBuild (only_cmd_arg path_packer_file : String)
  | terraformApply
  | terraformDestroy
  | changeEc2State (instances : List Ec2Instance) (state : String) (region : String)
  | artSimulate (target technique : String)
  | purplesharpSimulate (target technique playbook : String)
  | printLine (s : String)
  | printTable (headers : List String) (rows : List (List String))
  | openFile (path : String)
  | exportSearch (host search password : String)
  | closeFile
deriving Repr, DecidableEq

/-- True when the trace reached a `sys.exit`: nothing sequenced after it
runs. -/
def terminated (t : List Effect) : Bool :=
  t.any fun e => match e with
    | Effect.exitProcess _ => true
    | _ => false

/-- Sequencing of traces: the second part runs only when the first did not
exit the process. -/
def seq (a b : List Effect) : List Effect :=
  if terminated a then a else a ++ b

/-- Python `s.startswith(p)` on our string model. -/
def strStartsWith (s p : String) : Bool :=
  p.data.isPrefixOf s.data

/-- Embedding of `AwsController.__init__` after the `super().__init__` call:
validate the region via `aws_service.check_region`; on mismatch log an
error and exit with code 1 (no terraform handle is created); on match
create the terraform handle for `../terraform/aws` with parallelism 15.
The returned pair is (trace of effects, terraform handle when
construction succeeded).  `TerraformHandle` records the constructor
arguments. -/
structure TerraformHandle where
  working_dir : String
  parallelism : Nat
deriving Repr, DecidableEq

def initController (env : Env) (c : Config) : List Effect × Option TerraformHandle :=
  if env.check_region c.region = false then
    ([Effect.logError "AWS cli region and region in config file are not the same.",
      Effect.exitProcess 1], none)
  else
    ([], some { working_dir := "../terraform/aws", parallelism := 15 })

/-- Embedding of `AwsController.packer`: pick the builder target and
template from the image-name prefix, then run the packer subprocess; an
unmatched name logs "Image not supported." and exits with code 1. -/
def packerSelect (image_name : String) : String × String :=
  if strStartsWith image_name "splunk" then
    ("amazon-ebs.splunk-ubuntu-18-04", "packer/splunk_server/splunk-ubuntu.pkr.hcl")
  else if strStartsWith image_name "linux" then
    ("amazon-ebs.ubuntu-18-04", "packer/linux_server/linux-ubuntu-18-04.pkr.hcl")
  else if strStartsWith image_name "nginx" then
    ("amazon-ebs.nginx-web-proxy", "packer/nginx_server/nginx_web_proxy.pkr.hcl")
  else if strStartsWith image_name "windows-2016" then
    ("amazon-ebs.windows", "packer/windows_server/windows_2016.pkr.hcl")
  else if strStartsWith image_name "windows-2019" then
    ("amazon-ebs.windows", "packer/windows_server/windows_2019.pkr.hcl")
  else ("", "")

def packer (image_name : String) : List Effect :=
  if (packerSelect image_name).1 = "" then
    [Effect.logInfo ("Create golden image for " ++ image_name
       ++ ". This can take up to 30 minutes.\n"),
     Effect.logError "Image not supported.", Effect.exitProcess 1]
  else
    [Effect.logInfo ("Create golden image for " ++ image_name
       ++ ". This can take up to 30 minutes.\n"),
     Effect.packerBuild (packerSelect image_name).1 (packerSelect image_name).2]

/-- The image list `build` assembles: the splunk server image, the image
of each windows server, the image of each linux server, and the nginx
image when `config[nginx_server][nginx_server] == "1"`. -/
def buildImages (c : Config) : List String :=
  [c.splunk_image]
    ++ c.windows_servers.map WindowsServer.image
    ++ c.linux_servers.map LinuxServer.image
    ++ (if c.nginx_server_flag = "1" then [c.nginx_image] else [])

/-- One iteration of the image loop in `AwsController.build`: check
availability in the configured region, else look in other regions and
copy, else build with packer. -/
def processImage (env : Env) (c : Config) (image : String) : List Effect :=
  if env.ami_available image c.region = false then
    [Effect.logInfo ("Image " ++ image ++ " is not available in region " ++ c.region),
     Effect.logInfo ("Checking if image " ++ image ++ " is available in other regions.")]
    ++ (match env.ami_available_other_region image with
        | some result =>
          [Effect.logInfo ("Found image " ++ image ++ " in region " ++ result.region
             ++ ". Copy it to region " ++ c.region),
           Effect.copyImage image result.image_id result.region c.region]
        | none =>
          [Effect.logInfo ("Image " ++ image ++ " need to be built with packer.")]
          ++ packer image)
  else
    [Effect.logInfo ("Image " ++ image ++ " is available in region " ++ c.region)]

/-- The terraform-apply step of `build` with its conditional success log:
the message is logged exactly when the apply return code is falsy (0). -/
def applyReport (env : Env) : List Effect :=
  [Effect.terraformApply]
    ++ (if env.terraform_apply_rc = 0 then
          [Effect.logInfo "attack_range has been built using terraform successfully"]
        else [])

/-- Per-instance connection-info messages appended by `AwsController.show`
for a running instance, keyed on the instance-name prefix; unrecognized
names contribute no message. -/
def instanceMessage (c : Config) (inst : Ec2Instance) : List String :=
  let ip := inst.publicIp
  let name := inst.tagValue
  if strStartsWith name "ar-splunk" then
    if c.install_es = "1" then
      ["\nAccess Splunk via:\n\tWeb > https://" ++ ip ++ ":8000\n\tSSH > ssh -i"
        ++ c.private_key_path ++ " ubuntu@" ++ ip
        ++ "\n\tusername: admin \n\tpassword: " ++ c.attack_range_password]
    else
      ["\nAccess Splunk via:\n\tWeb > http://" ++ ip ++ ":8000\n\tSSH > ssh -i"
        ++ c.private_key_path ++ " ubuntu@" ++ ip
        ++ "\n\tusername: admin \n\tpassword: " ++ c.attack_range_password]
  else if strStartsWith name "ar-phantom" then
    ["\nAccess Phantom via:\n\tWeb > https://" ++ ip ++ "\n\tSSH > ssh -i"
      ++ c.private_key_path ++ " centos@" ++ ip
      ++ "\n\tusername: admin \n\tpassword: " ++ c.attack_range_password]
  else if strStartsWith name "ar-win" then
    ["\nAccess Windows via:\n\tRDP > rdp://" ++ ip
      ++ ":3389\n\tusername: Administrator \n\tpassword: " ++ c.attack_range_password]
  else if strStartsWith name "ar-linux" then
    ["\nAccess Linux via:\n\tSSH > ssh -i" ++ c.private_key_path ++ " ubuntu@" ++ ip
      ++ "\n\tusername: ubuntu \n\tpassword: " ++ c.attack_range_password]
  else if strStartsWith name "ar-kali" then
    ["\nAccess Kali via:\n\tSSH > ssh -i" ++ c.private_key_path ++ " kali@" ++ ip
      ++ "\n\tusername: kali \n\tpassword: " ++ c.attack_range_password]
  else if strStartsWith name "ar-nginx" then
    ["\nAccess Nginx Web Proxy via:\n\tSSH > ssh -i" ++ c.private_key_path
      ++ " ubuntu@" ++ ip ++ "\n\tusername: kali \n\tpassword: " ++ c.attack_range_password]
  else []

/-- Loop state of `AwsController.show`: the table rows (`response`), the
connection messages, whether a running instance was seen, and the last
splunk IP seen. -/
structure ShowState where
  response : List (List String)
  messages : List String
  instances_running : Bool
  splunk_ip : String
deriving Repr, DecidableEq

/-- One iteration of the instance loop in `AwsController.show`. -/
def showStep (c : Config) (s : ShowState) (inst : Ec2Instance) : ShowState :=
  if inst.stateName = "running" then
    { response := s.response ++ [[inst.tagValue, inst.stateName, inst.publicIp]]
      messages := s.messages ++ instanceMessage c inst
      instances_running := true
      splunk_ip := if strStartsWith inst.tagValue "ar-splunk" then inst.publicIp
                   else s.splunk_ip }
  else
    { s with response := s.response ++ [[inst.tagValue, inst.stateName]] }

/-- The instance loop of `AwsController.show`, started from the initial
state (empty rows and messages, `instances_running = False`,
`splunk_ip = ""`). -/
def showScan (c : Config) (instances : List Ec2Instance) : ShowState :=
  instances.foldl (showStep c) ⟨[], [], false, ""⟩

/-- The message list `show` prints: the per-instance messages, plus the
prelude message when `config[simulation][prelude]` is "1" (the
session-token file read is abstracted by `env.prelude_token`). -/
def showMessages (env : Env) (c : Config) (s : ShowState) : List String :=
  if c.prelude_flag = "1" then
    s.messages ++ ["\nAccess Prelude Operator UI via:\n\tredirector FQDN > "
      ++ s.splunk_ip ++ "\n\tToken: " ++ env.prelude_token
      ++ "\n\tSee guide details: https://github.com/splunk/attack_range/wiki/Prelude-Operator"]
  else s.messages

/-- Embedding of `AwsController.show`: query the inventory, build rows and
messages via the instance loop, then print the table (three columns and
the messages when some instance runs, two columns otherwise), or the
error line when no instance was found. -/
def showTrace (env : Env) (c : Config) : List Effect :=
  [Effect.logInfo "[action] > show\n",
   Effect.queryInstances c.key_name c.attack_range_name c.region,
   Effect.printLine "",
   Effect.printLine "Status Virtual Machines\n"]
  ++ (if 0 < (showScan c (env.get_all_instances c.key_name c.attack_range_name c.region)).response.length then
        (if (showScan c (env.get_all_instances c.key_name c.attack_range_name c.region)).instances_running then
          [Effect.printTable ["Name", "Status", "IP Address"]
             (showScan c (env.get_all_instances c.key_name c.attack_range_name c.region)).response]
            ++ (showMessages env c
                  (showScan c (env.get_all_instances c.key_name c.attack_range_name c.region))).map
                Effect.printLine
         else
          [Effect.printTable ["Name", "Status"]
             (showScan c (env.get_all_instances c.key_name c.attack_range_name c.region)).response])
        ++ [Effect.printLine ""]
      else
        [Effect.printLine "ERROR: Can\x27t find configured Attack Range Instances"])

/-- Embedding of `AwsController.build`: assemble the image list, run the
availability/copy/build step for each image (stopping if a step exits the
process), then terraform apply with its conditional success log, then
`show`. -/
def build (env : Env) (c : Config) : List Effect :=
  let pre := [Effect.logInfo "[action] > build\n",
              Effect.logInfo ("Check if images are available in region " ++ c.region)]
  let loop := (buildImages c).foldl (fun acc img => seq acc (processImage env c img)) pre
  seq loop (applyReport env ++ showTrace env c)

/-- Embedding of `AwsController.destroy`: terraform destroy, then the
success log, unconditionally (the return code is never inspected). -/
def destroy (env : Env) (c : Config) : List Effect :=
  let _rc := env.terraform_destroy_rc
  [Effect.logInfo "[action] > destroy\n",
   Effect.terraformDestroy,
   Effect.logInfo "attack_range has been destroy using terraform successfully"]

/-- Embedding of `AwsController.stop`: fetch all instances for the
configured key name, range name and region, then request state
`stopped` for them. -/
def stop (env : Env) (c : Config) : List Effect :=
  let instances := env.get_all_instances c.key_name c.attack_range_name c.region
  [Effect.queryInstances c.key_name c.attack_range_name c.region,
   Effect.changeEc2State instances "stopped" c.region]

/-- Embedding of `AwsController.resume`: fetch all instances for the
configured key name, range name and region, then request state
`running` for them. -/
def resume (env : Env) (c : Config) : List Effect :=
  let instances := env.get_all_instances c.key_name c.attack_range_name c.region
  [Effect.queryInstances c.key_name c.attack_range_name c.region,
   Effect.changeEc2State instances "running" c.region]

/-- Embedding of `AwsController.simulate`: log the action line, then two
independent `if` statements dispatch on the engine string. -/
def simulate (engine target technique playbook : String) : List Effect :=
  [Effect.logInfo "[action] > simulate\n"]
  ++ (if engine = "ART" then [Effect.artSimulate target technique] else [])
  ++ (if engine = "PurpleSharp" then
        [Effect.purplesharpSimulate target technique playbook] else [])

/-- Embedding of `AwsController.dump`: build the search string, open the
output file (a path under the repository root formed from `dump_name`),
export the search from the splunk instance, close the file, log
completion. -/
def dump (env : Env) (c : Config) (dump_name search earliest latest : String) :
    List Effect :=
  let dump_search := "search " ++ search ++ " earliest=-" ++ earliest
    ++ " latest=" ++ latest ++ " | sort 0 _time"
  let splunk_instance := "ar-splunk-" ++ c.key_name ++ "-" ++ c.attack_range_name
  [Effect.logInfo "Dump log data",
   Effect.logInfo ("Dumping Splunk Search: " ++ dump_search),
   Effect.openFile ("../" ++ dump_name),
   Effect.exportSearch
     (env.get_single_instance_public_ip splunk_instance c.key_name
        c.attack_range_name c.region)
     dump_search c.attack_range_password,
   Effect.closeFile,
   Effect.logInfo "[Completed]"]

/-- Effect is a `packerBuild` call into the external image builder. -/
def isPackerBuild : Effect → Bool
  | Effect.packerBuild _ _ => true
  | _ => false

/-- Effect is a `copy_image` call. -/
def isCopyImage : Effect → Bool
  | Effect.copyImage _ _ _ _ => true
  | _ => false

/-- Replace the requested state of every `changeEc2State` effect, leaving
all other effects unchanged. -/
def retargetState (new : String) : Effect → Effect
  | Effect.changeEc2State insts _ region => Effect.changeEc2State insts new region
  | e => e

/-- Instance names for which `show` prints a connection-info message. -/
def recognizedName (name : String) : Bool :=
  strStartsWith name "ar-splunk" || strStartsWith name "ar-phantom" ||
  strStartsWith name "ar-win" || strStartsWith name "ar-linux" ||
  strStartsWith name "ar-kali" || strStartsWith name "ar-nginx"

/- Helper lemmas. -/

theorem isPrefixOf_cases : ∀ (s p q : List Char), p.isPrefixOf s = true →
    q.isPrefixOf s = true → p.isPrefixOf q = true ∨ q.isPrefixOf p = true := by
  intro s
  induction s with
  | nil =>
    intro p q hp hq
    cases p <;> cases q <;> simp_all [List.isPrefixOf]
  | cons a s ih =>
    intro p q hp hq
    cases p with
    | nil => left; simp [List.isPrefixOf]
    | cons x xs =>
      cases q with
      | nil => right; simp [List.isPrefixOf]
      | cons y ys =>
        simp only [List.isPrefixOf, Bool.and_eq_true, beq_iff_eq] at hp hq
        obtain ⟨hx, hp2⟩ := hp
        obtain ⟨hy, hq2⟩ := hq
        subst hx; subst hy
        rcases ih xs ys hp2 hq2 with h | h
        · left; simp [List.isPrefixOf, h]
        · right; simp [List.isPrefixOf, h]

/-- Two candidate literals that are not prefixes of one another cannot
both be prefixes of the same string. -/
theorem strStartsWith_excl (s p q : String) (hp : strStartsWith s p = true)
    (h1 : p.data.isPrefixOf q.data = false) (h2 : q.data.isPrefixOf p.data = false) :
    strStartsWith s q = false := by
  unfold strStartsWith at *
  by_contra h
  rw [Bool.not_eq_false] at h
  rcases isPrefixOf_cases s.data p.data q.data hp h with hc | hc
  · rw [h1] at hc; exact Bool.false_ne_true hc
  · rw [h2] at hc; exact Bool.false_ne_true hc

theorem terminated_append (a b : List Effect) :
    terminated (a ++ b) = (terminated a || terminated b) := by
  simp [terminated, List.any_append]

theorem seq_of_not_terminated (a b : List Effect) (h : terminated a = false) :
    seq a b = a ++ b := by
  simp [seq, h]

theorem foldl_seq_flatMap (f : String → List Effect) :
    ∀ (l : List String) (acc : List Effect), terminated acc = false →
      (∀ x ∈ l, terminated (f x) = false) →
      l.foldl (fun a x => seq a (f x)) acc = acc ++ l.flatMap f := by
  intro l
  induction l with
  | nil => intro acc _ _; simp
  | cons x xs ih =>
    intro acc hacc hall
    have hx : terminated (f x) = false := hall x (List.mem_cons_self x xs)
    have hseq : seq acc (f x) = acc ++ f x := seq_of_not_terminated _ _ hacc
    have hacc2 : terminated (acc ++ f x) = false := by
      rw [terminated_append, hacc, hx]; rfl
    simp only [List.foldl_cons, hseq]
    rw [ih (acc ++ f x) hacc2 (fun y hy => hall y (List.mem_cons_of_mem x hy))]
    simp [List.flatMap_cons, List.append_assoc]

/-- Unfolding of `build` when no image step exits the process: the two
opening log lines, then the per-image steps in list order, then the
terraform apply step, then `show`. -/
theorem build_unfold (env : Env) (c : Config)
    (h : ∀ img ∈ buildImages c, terminated (processImage env c img) = false) :
    build env c =
      [Effect.logInfo "[action] > build\n",
       Effect.logInfo ("Check if images are available in region " ++ c.region)]
      ++ (buildImages c).flatMap (processImage env c)
      ++ applyReport env ++ showTrace env c := by
  unfold build
  simp only []
  rw [foldl_seq_flatMap (processImage env c) (buildImages c) _ (by simp [terminated]) h]
  rw [seq_of_not_terminated]
  · simp [List.append_assoc]
  · rw [terminated_append]
    simp only [Bool.or_eq_false_iff]
    constructor
    · simp [terminated]
    · rw [terminated]
      rw [List.any_eq_false]
      intro e he
      have := h
      revert he
      simp only [List.mem_flatMap]
      rintro ⟨img, himg, he⟩
      have ht := h img himg
      rw [terminated, List.any_eq_false] at ht
      exact ht e he

theorem head_append (p s : String) (c : Char) (h : p.data.head? = some c) :
    (p ++ s).data.head? = some c := by
  rw [String.data_append]
  cases hd : p.data with
  | nil => rw [hd] at h; cases h
  | cons a as =>
    rw [hd] at h
    simp only [List.head?_cons, Option.some.injEq] at h
    subst h
    rfl

theorem str_ne_of_head (a b : String) (ca cb : Char)
    (ha : a.data.head? = some ca) (hb : b.data.head? = some cb) (h : ca ≠ cb) :
    a ≠ b := by
  intro he
  subst he
  rw [ha] at hb
  exact h (Option.some.inj hb)

theorem logInfo_ne_of_head (m1 m2 : String) (c1 c2 : Char)
    (h1 : m1.data.head? = some c1) (h2 : m2.data.head? = some c2) (h : c1 ≠ c2) :
    Effect.logInfo m1 ≠ Effect.logInfo m2 := by
  intro he
  have hm : m1 = m2 := by injection he
  exact str_ne_of_head m1 m2 c1 c2 h1 h2 h hm

theorem built_msg_not_in_packer (img : String) :
    Effect.logInfo "attack_range has been built using terraform successfully"
      ∉ packer img := by
  unfold packer
  intro hmem
  split at hmem <;>
  · simp only [List.mem_cons, List.not_mem_nil, or_false] at hmem
    rcases hmem with h | h
    · exact absurd h (by
        refine logInfo_ne_of_head _ _ 'a' 'C' ?_ ?_ (by decide)
        · rfl
        · exact head_append _ _ _ (head_append _ _ _ rfl))
    · simp at h

theorem built_msg_not_in_processImage (env : Env) (c : Config) (image : String) :
    Effect.logInfo "attack_range has been built using terraform successfully"
      ∉ processImage env c image := by
  unfold processImage
  intro hmem
  split at hmem
  · rw [List.mem_append] at hmem
    rcases hmem with h | h
    · simp only [List.mem_cons, List.not_mem_nil, or_false] at h
      rcases h with h | h
      · exact absurd h (by
          refine logInfo_ne_of_head _ _ 'a' 'I' ?_ ?_ (by decide)
          · rfl
          · exact head_append _ _ _ (head_append _ _ _ (head_append _ _ _ rfl)))
      · exact absurd h (by
          refine logInfo_ne_of_head _ _ 'a' 'C' ?_ ?_ (by decide)
          · rfl
          · exact head_append _ _ _ (head_append _ _ _ rfl))
    · cases hor : env.ami_available_other_region image with
      | some fi =>
        rw [hor] at h
        simp only [List.mem_cons, List.not_mem_nil, or_false] at h
        rcases h with h | h
        · exact absurd h (by
            refine logInfo_ne_of_head _ _ 'a' 'F' ?_ ?_ (by decide)
            · rfl
            · exact head_append _ _ _ (head_append _ _ _ (head_append _ _ _
                (head_append _ _ _ rfl))))
        · simp at h
      | none =>
        rw [hor] at h
        rw [List.mem_append] at h
        rcases h with h | h
        · simp only [List.mem_cons, List.not_mem_nil, or_false] at h
          exact absurd h (by
            refine logInfo_ne_of_head _ _ 'a' 'I' ?_ ?_ (by decide)
            · rfl
            · exact head_append _ _ _ (head_append _ _ _ rfl))
        · exact built_msg_not_in_packer image h
  · simp only [List.mem_cons, List.not_mem_nil, or_false] at hmem
    exact absurd hmem (by
      refine logInfo_ne_of_head _ _ 'a' 'I' ?_ ?_ (by decide)
      · rfl
      · exact head_append _ _ _ (head_append _ _ _ (head_append _ _ _ rfl)))

theorem built_msg_not_in_showTrace (env : Env) (c : Config) :
    Effect.logInfo "attack_range has been built using terraform successfully"
      ∉ showTrace env c := by
  unfold showTrace
  intro hmem
  rw [List.mem_append] at hmem
  rcases hmem with h | h
  · simp only [List.mem_cons, List.not_mem_nil, or_false] at h
    rcases h with h | h | h | h <;> simp at h
  · split at h
    · rw [List.mem_append] at h
      rcases h with h | h
      · split at h
        · rw [List.mem_append] at h
          rcases h with h | h
          · simp at h
          · rw [List.mem_map] at h
            obtain ⟨m, _, hm⟩ := h
            simp at hm
        · simp at h
      · simp at h
    · simp at h

theorem packer_no_copy (img : String) : (packer img).any isCopyImage = false := by
  unfold packer
  split <;> simp [isCopyImage]

/-- The table row `show` appends for one instance: three columns when it
is running, two otherwise. -/
def showRow (i : Ec2Instance) : List String :=
  if i.stateName = "running" then [i.tagValue, i.stateName, i.publicIp]
  else [i.tagValue, i.stateName]

theorem showScan_response (c : Config) :
    ∀ (l : List Ec2Instance) (s : ShowState),
      (l.foldl (showStep c) s).response = s.response ++ l.map showRow := by
  intro l
  induction l with
  | nil => intro s; simp
  | cons i l ih =>
    intro s
    simp only [List.foldl_cons, List.map_cons]
    rw [ih]
    unfold showStep showRow
    split
    · rename_i h
      simp [h, List.append_assoc]
    · rename_i h
      simp [h, List.append_assoc]

theorem showScan_messages (c : Config) :
    ∀ (l : List Ec2Instance) (s : ShowState),
      (l.foldl (showStep c) s).messages =
        s.messages ++ l.flatMap (fun i =>
          if i.stateName = "running" then instanceMessage c i else []) := by
  intro l
  induction l with
  | nil => intro s; simp
  | cons i l ih =>
    intro s
    simp only [List.foldl_cons, List.flatMap_cons]
    rw [ih]
    unfold showStep
    split
    · rename_i h
      simp [h, List.append_assoc]
    · rename_i h
      simp [h]

theorem instanceMessage_card (c : Config) (i : Ec2Instance) :
    (instanceMessage c i).length = (if recognizedName i.tagValue = true then 1 else 0) := by
  unfold instanceMessage recognizedName
  cases h1 : strStartsWith i.tagValue "ar-splunk" with
  | true =>
    simp only [h1, if_true, Bool.true_or]
    split <;> simp
  | false =>
    cases h2 : strStartsWith i.tagValue "ar-phantom" with
    | true => simp [h1, h2]
    | false =>
      cases h3 : strStartsWith i.tagValue "ar-win" with
      | true => simp [h1, h2, h3]
      | false =>
        cases h4 : strStartsWith i.tagValue "ar-linux" with
        | true => simp [h1, h2, h3, h4]
        | false =>
          cases h5 : strStartsWith i.tagValue "ar-kali" with
          | true => simp [h1, h2, h3, h4, h5]
          | false =>
            cases h6 : strStartsWith i.tagValue "ar-nginx" with
            | true => simp [h1, h2, h3, h4, h5, h6]
            | false => simp [h1, h2, h3, h4, h5, h6]

theorem showTrace_of_empty (env : Env) (c : Config)
    (h : env.get_all_instances c.key_name c.attack_range_name c.region = []) :
    showTrace env c =
      [Effect.logInfo "[action] > show\n",
       Effect.queryInstances c.key_name c.attack_range_name c.region,
       Effect.printLine "",
       Effect.printLine "Status Virtual Machines\n",
       Effect.printLine "ERROR: Can\x27t find configured Attack Range Instances"] := by
  unfold showTrace
  rw [h]
  simp [showScan]

/- Claim theorems. -/

/-- Claim C1: for an image that is not available in the configured region,
`build` follows the decision tree exactly: it queries other regions; when
a copy is found there it copies that image into the configured region and
does not invoke packer; when none is found it invokes the packer helper
for that image; an image already available in the region triggers neither
a copy nor a packer build. -/
theorem build_image_decision_tree (env : Env) (c : Config) (image : String) :
    (env.ami_available image c.region = false →
      (∀ fi : FoundImage, env.ami_available_other_region image = some fi →
        processImage env c image =
          [Effect.logInfo ("Image " ++ image ++ " is not available in region " ++ c.region),
           Effect.logInfo ("Checking if image " ++ image ++ " is available in other regions."),
           Effect.logInfo ("Found image " ++ image ++ " in region " ++ fi.region
             ++ ". Copy it to region " ++ c.region),
           Effect.copyImage image fi.image_id fi.region c.region] ∧
        (processImage env c image).any isPackerBuild = false ∧
        terminated (processImage env c image) = false) ∧
      (env.ami_available_other_region image = none →
        processImage env c image =
          [Effect.logInfo ("Image " ++ image ++ " is not available in region " ++ c.region),
           Effect.logInfo ("Checking if image " ++ image ++ " is available in other regions."),
           Effect.logInfo ("Image " ++ image ++ " need to be built with packer.")]
          ++ packer image ∧
        (processImage env c image).any isCopyImage = false)) ∧
    (env.ami_available image c.region = true →
      processImage env c image =
        [Effect.logInfo ("Image " ++ image ++ " is available in region " ++ c.region)] ∧
      (processImage env c image).any isCopyImage = false ∧
      (processImage env c image).any isPackerBuild = false) := by
  constructor
  · intro hav
    constructor
    · intro fi hfi
      have he : processImage env c image =
          [Effect.logInfo ("Image " ++ image ++ " is not available in region " ++ c.region),
           Effect.logInfo ("Checking if image " ++ image ++ " is available in other regions."),
           Effect.logInfo ("Found image " ++ image ++ " in region " ++ fi.region
             ++ ". Copy it to region " ++ c.region),
           Effect.copyImage image fi.image_id fi.region c.region] := by
        unfold processImage
        rw [hav, hfi]
        simp
      refine ⟨he, ?_, ?_⟩ <;> rw [he] <;> simp [isPackerBuild, terminated]
    · intro hfi
      have he : processImage env c image =
          [Effect.logInfo ("Image " ++ image ++ " is not available in region " ++ c.region),
           Effect.logInfo ("Checking if image " ++ image ++ " is available in other regions."),
           Effect.logInfo ("Image " ++ image ++ " need to be built with packer.")]
          ++ packer image := by
        unfold processImage
        rw [hav, hfi]
        simp
      refine ⟨he, ?_⟩
      rw [he]
      simp only [List.any_append, List.any_cons, List.any_nil]
      simp [isCopyImage, packer_no_copy image]
  · intro hav
    have he : processImage env c image =
        [Effect.logInfo ("Image " ++ image ++ " is available in region " ++ c.region)] := by
      unfold processImage
      rw [hav]
      simp
    refine ⟨he, ?_, ?_⟩ <;> rw [he] <;> simp [isCopyImage, isPackerBuild]

/-- Claim C2: `build` assembles the image list as the splunk image, the
windows server images, the linux server images, and the nginx image iff
`config[nginx_server][nginx_server] = "1"`; when no image step exits the
process it runs the availability/copy/build step for every listed image
before terraform apply, and runs `show` after apply. -/
theorem build_images_then_apply_then_show (env : Env) (c : Config)
    (h : ∀ img ∈ buildImages c, terminated (processImage env c img) = false) :
    buildImages c =
      [c.splunk_image] ++ c.windows_servers.map WindowsServer.image
        ++ c.linux_servers.map LinuxServer.image
        ++ (if c.nginx_server_flag = "1" then [c.nginx_image] else []) ∧
    build env c =
      [Effect.logInfo "[action] > build\n",
       Effect.logInfo ("Check if images are available in region " ++ c.region)]
      ++ (buildImages c).flatMap (processImage env c)
      ++ ([Effect.terraformApply]
          ++ (if env.terraform_apply_rc = 0 then
                [Effect.logInfo "attack_range has been built using terraform successfully"]
              else []))
      ++ showTrace env c := by
  refine ⟨rfl, ?_⟩
  rw [build_unfold env c h]
  rfl

/-- Claim C3: constructing the controller validates the region first: when
the AWS cli region does not match the configured region it logs an error
and exits with code 1, creating no terraform handle and performing no
other operation; when it matches, construction succeeds with the
terraform handle and performs no effect. -/
theorem init_region_validation (env : Env) (c : Config) :
    (env.check_region c.region = false →
      initController env c =
        ([Effect.logError "AWS cli region and region in config file are not the same.",
          Effect.exitProcess 1], none)) ∧
    (env.check_region c.region = true →
      initController env c = ([], some ⟨"../terraform/aws", 15⟩)) := by
  constructor
  · intro h
    unfold initController
    rw [h]
    simp
  · intro h
    unfold initController
    rw [h]
    simp

/-- Claim C4: `packer` selects the builder target and template solely from
the image-name prefix, one per family (splunk, linux, nginx,
windows-2016, windows-2019), and invokes the external builder for it; a
name matching none of the five prefixes logs "Image not supported." and
exits with code 1 without invoking the builder. -/
theorem packer_family_selection (image_name : String) :
    (strStartsWith image_name "splunk" = true →
      packer image_name =
        [Effect.logInfo ("Create golden image for " ++ image_name
           ++ ". This can take up to 30 minutes.\n"),
         Effect.packerBuild "amazon-ebs.splunk-ubuntu-18-04"
           "packer/splunk_server/splunk-ubuntu.pkr.hcl"]) ∧
    (strStartsWith image_name "linux" = true →
      packer image_name =
        [Effect.logInfo ("Create golden image for " ++ image_name
           ++ ". This can take up to 30 minutes.\n"),
         Effect.packerBuild "amazon-ebs.ubuntu-18-04"
           "packer/linux_server/linux-ubuntu-18-04.pkr.hcl"]) ∧
    (strStartsWith image_name "nginx" = true →
      packer image_name =
        [Effect.logInfo ("Create golden image for " ++ image_name
           ++ ". This can take up to 30 minutes.\n"),
         Effect.packerBuild "amazon-ebs.nginx-web-proxy"
           "packer/nginx_server/nginx_web_proxy.pkr.hcl"]) ∧
    (strStartsWith image_name "windows-2016" = true →
      packer image_name =
        [Effect.logInfo ("Create golden image for " ++ image_name
           ++ ". This can take up to 30 minutes.\n"),
         Effect.packerBuild "amazon-ebs.windows"
           "packer/windows_server/windows_2016.pkr.hcl"]) ∧
    (strStartsWith image_name "windows-2019" = true →
      packer image_name =
        [Effect.logInfo ("Create golden image for " ++ image_name
           ++ ". This can take up to 30 minutes.\n"),
         Effect.packerBuild "amazon-ebs.windows"
           "packer/windows_server/windows_2019.pkr.hcl"]) ∧
    (strStartsWith image_name "splunk" = false →
     strStartsWith image_name "linux" = false →
     strStartsWith image_name "nginx" = false →
     strStartsWith image_name "windows-2016" = false →
     strStartsWith image_name "windows-2019" = false →
      packer image_name =
        [Effect.logInfo ("Create golden image for " ++ image_name
           ++ ". This can take up to 30 minutes.\n"),
         Effect.logError "Image not supported.", Effect.exitProcess 1] ∧
      (packer image_name).any isPackerBuild = false) := by
  refine ⟨?_, ?_, ?_, ?_, ?_, ?_⟩
  · intro h
    simp [packer, packerSelect, h]
  · intro h
    have e1 : strStartsWith image_name "splunk" = false :=
      strStartsWith_excl image_name "linux" "splunk" h (by decide) (by decide)
    simp [packer, packerSelect, h, e1]
  · intro h
    have e1 : strStartsWith image_name "splunk" = false :=
      strStartsWith_excl image_name "nginx" "splunk" h (by decide) (by decide)
    have e2 : strStartsWith image_name "linux" = false :=
      strStartsWith_excl image_name "nginx" "linux" h (by decide) (by decide)
    simp [packer, packerSelect, h, e1, e2]
  · intro h
    have e1 : strStartsWith image_name "splunk" = false :=
      strStartsWith_excl image_name "windows-2016" "splunk" h (by decide) (by decide)
    have e2 : strStartsWith image_name "linux" = false :=
      strStartsWith_excl image_name "windows-2016" "linux" h (by decide) (by decide)
    have e3 : strStartsWith image_name "nginx" = false :=
      strStartsWith_excl image_name "windows-2016" "nginx" h (by decide) (by decide)
    simp [packer, packerSelect, h, e1, e2, e3]
  · intro h
    have e1 : strStartsWith image_name "splunk" = false :=
      strStartsWith_excl image_name "windows-2019" "splunk" h (by decide) (by decide)
    have e2 : strStartsWith image_name "linux" = false :=
      strStartsWith_excl image_name "windows-2019" "linux" h (by decide) (by decide)
    have e3 : strStartsWith image_name "nginx" = false :=
      strStartsWith_excl image_name "windows-2019" "nginx" h (by decide) (by decide)
    have e4 : strStartsWith image_name "windows-2016" = false :=
      strStartsWith_excl image_name "windows-2019" "windows-2016" h (by decide) (by decide)
    simp [packer, packerSelect, h, e1, e2, e3, e4]
  · intro h1 h2 h3 h4 h5
    constructor
    · simp [packer, packerSelect, h1, h2, h3, h4, h5]
    · simp [packer, packerSelect, h1, h2, h3, h4, h5, isPackerBuild]

/-- Claim C5: `stop` and `resume` both first retrieve all instances for the
configured key name, range name and region, then request target state
`stopped` respectively `running` for exactly that instance set; the two
traces differ only in the requested state. -/
theorem stop_resume_power_state (env : Env) (c : Config) :
    stop env c =
      [Effect.queryInstances c.key_name c.attack_range_name c.region,
       Effect.changeEc2State (env.get_all_instances c.key_name c.attack_range_name c.region)
         "stopped" c.region] ∧
    resume env c =
      [Effect.queryInstances c.key_name c.attack_range_name c.region,
       Effect.changeEc2State (env.get_all_instances c.key_name c.attack_range_name c.region)
         "running" c.region] ∧
    resume env c = (stop env c).map (retargetState "running") ∧
    stop env c = (resume env c).map (retargetState "stopped") := by
  exact ⟨rfl, rfl, rfl, rfl⟩

/-- Claim C6: `simulate` dispatches on the engine string: "ART" invokes the
ART simulation controller with (target, technique) and nothing else;
"PurpleSharp" invokes the PurpleSharp simulation controller with
(target, technique, playbook) and nothing else. -/
theorem simulate_engine_dispatch (engine target technique playbook : String) :
    (engine = "ART" →
      simulate engine target technique playbook =
        [Effect.logInfo "[action] > simulate\n",
         Effect.artSimulate target technique]) ∧
    (engine = "PurpleSharp" →
      simulate engine target technique playbook =
        [Effect.logInfo "[action] > simulate\n",
         Effect.purplesharpSimulate target technique playbook]) := by
  constructor
  · intro h
    subst h
    simp [simulate]
  · intro h
    subst h
    simp [simulate]

/-- Claim C7: `show` queries the inventory for the configured key name,
range name and region; a running instance contributes the row
(name, state, public IP) and, exactly when its name has a recognized
prefix, one connection-info message; a non-running instance contributes
the row (name, state) and no message; an empty inventory prints the
error line instead of a table. -/
theorem show_inventory_rendering (env : Env) (c : Config) :
    (showScan c (env.get_all_instances c.key_name c.attack_range_name c.region)).response =
      (env.get_all_instances c.key_name c.attack_range_name c.region).map showRow ∧
    (showScan c (env.get_all_instances c.key_name c.attack_range_name c.region)).messages =
      (env.get_all_instances c.key_name c.attack_range_name c.region).flatMap (fun i =>
        if i.stateName = "running" then instanceMessage c i else []) ∧
    (∀ i : Ec2Instance, (instanceMessage c i).length =
      (if recognizedName i.tagValue = true then 1 else 0)) ∧
    (env.get_all_instances c.key_name c.attack_range_name c.region = [] →
      showTrace env c =
        [Effect.logInfo "[action] > show\n",
         Effect.queryInstances c.key_name c.attack_range_name c.region,
         Effect.printLine "",
         Effect.printLine "Status Virtual Machines\n",
         Effect.printLine "ERROR: Can\x27t find configured Attack Range Instances"]) := by
  refine ⟨?_, ?_, instanceMessage_card c, showTrace_of_empty env c⟩
  · rw [showScan, showScan_response]
    rfl
  · rw [showScan, showScan_messages]
    rfl

/-- Claim C8: `dump` exports to the file derived from `dump_name` the
result of exactly the query
`search <search> earliest=-<earliest> latest=<latest> | sort 0 _time`
from the splunk instance, and closes the output file afterwards. -/
theorem dump_query_and_close (env : Env) (c : Config)
    (dump_name search earliest latest : String) :
    dump env c dump_name search earliest latest =
      [Effect.logInfo "Dump log data",
       Effect.logInfo ("Dumping Splunk Search: "
         ++ ("search " ++ search ++ " earliest=-" ++ earliest ++ " latest=" ++ latest
             ++ " | sort 0 _time")),
       Effect.openFile ("../" ++ dump_name),
       Effect.exportSearch
         (env.get_single_instance_public_ip
           ("ar-splunk-" ++ c.key_name ++ "-" ++ c.attack_range_name)
           c.key_name c.attack_range_name c.region)
         ("search " ++ search ++ " earliest=-" ++ earliest ++ " latest=" ++ latest
           ++ " | sort 0 _time")
         c.attack_range_password,
       Effect.closeFile,
       Effect.logInfo "[Completed]"] := by
  rfl

/-- Claim C9: for any engine other than "ART" and "PurpleSharp", `simulate`
logs the action line and returns, invoking no simulation controller and
signalling no error. -/
theorem simulate_unknown_engine (engine target technique playbook : String)
    (h1 : engine ≠ "ART") (h2 : engine ≠ "PurpleSharp") :
    simulate engine target technique playbook =
      [Effect.logInfo "[action] > simulate\n"] := by
  simp [simulate, h1, h2]

/-- Claim C10: `destroy` logs its success message unconditionally, for
every terraform destroy return code, while `build` logs its success
message exactly when the apply return code is zero (assuming no image
step exits the process first). -/
theorem destroy_reports_unconditionally (env : Env) (c : Config)
    (h : ∀ img ∈ buildImages c, terminated (processImage env c img) = false) :
    (∀ rc : Int, destroy { env with terraform_destroy_rc := rc } c = destroy env c) ∧
    Effect.logInfo "attack_range has been destroy using terraform successfully"
      ∈ destroy env c ∧
    (Effect.logInfo "attack_range has been built using terraform successfully"
      ∈ build env c ↔ env.terraform_apply_rc = 0) := by
  refine ⟨fun rc => rfl, by simp [destroy], ?_⟩
  rw [build_unfold env c h]
  constructor
  · intro hm
    simp only [applyReport, List.mem_append] at hm
    rcases hm with ((hm | hm) | (hm | hm)) | hm
    · simp only [List.mem_cons, List.not_mem_nil, or_false] at hm
      rcases hm with hm | hm
      · simp at hm
      · exact absurd hm (by
          refine logInfo_ne_of_head _ _ 'a' 'C' ?_ ?_ (by decide)
          · rfl
          · exact head_append _ _ _ rfl)
    · rw [List.mem_flatMap] at hm
      obtain ⟨img, _, hmem⟩ := hm
      exact absurd hmem (built_msg_not_in_processImage env c img)
    · simp at hm
    · split at hm
      · rename_i hrc
        simp only [List.mem_cons, List.not_mem_nil, or_false] at hm
        exact hrc
      · simp at hm
    · exact absurd hm (built_msg_not_in_showTrace env c)
  · intro hrc
    simp only [applyReport, List.mem_append]
    left; right; right
    simp [hrc]

/- Concrete fixtures used to instantiate the theorems above. -/

/-- A concrete configuration. -/
def cfg0 : Config :=
  { region := "eu-central-1", private_key_path := "key.pem",
    splunk_image := "splunk-v3-0-0", install_es := "0",
    windows_servers := [{ image := "windows-2016-v3-0-0" }],
    linux_servers := [{ image := "linux-v3-0-0" }],
    nginx_server_flag := "1", nginx_image := "nginx-v3-0-0",
    key_name := "kn", attack_range_name := "arn",
    attack_range_password := "pw", prelude_flag := "0" }

/-- Environment where every image is available in the configured region,
the region check passes, terraform succeeds and the inventory is empty. -/
def envAvail : Env :=
  { check_region := fun _ => true,
    ami_available := fun _ _ => true,
    ami_available_other_region := fun _ => none,
    get_all_instances := fun _ _ _ => [],
    get_single_instance_public_ip := fun _ _ _ _ => "3.120.0.1",
    terraform_apply_rc := 0,
    terraform_destroy_rc := 0,
    prelude_token := "tok" }

/-- Environment where no image is available locally but a copy exists in
another region. -/
def envCopy : Env :=
  { envAvail with
    ami_available := fun _ _ => false,
    ami_available_other_region :=
      fun _ => some { image_id := "ami-123", region := "us-west-1" } }

/-- Environment where no image is available in any region. -/
def envMissing : Env :=
  { envAvail with ami_available := fun _ _ => false }

/-- Environment where the AWS cli region check fails. -/
def envBadRegion : Env :=
  { envAvail with check_region := fun _ => false }

/- Witnesses. -/

/-- Witness for C1: the three branches of the decision tree at concrete
inputs. -/
theorem build_image_decision_tree_witness :
    (processImage envCopy cfg0 "splunk-v3-0-0" =
      [Effect.logInfo ("Image " ++ "splunk-v3-0-0" ++ " is not available in region "
         ++ cfg0.region),
       Effect.logInfo ("Checking if image " ++ "splunk-v3-0-0"
         ++ " is available in other regions."),
       Effect.logInfo ("Found image " ++ "splunk-v3-0-0" ++ " in region " ++ "us-west-1"
         ++ ". Copy it to region " ++ cfg0.region),
       Effect.copyImage "splunk-v3-0-0" "ami-123" "us-west-1" cfg0.region] ∧
     (processImage envCopy cfg0 "splunk-v3-0-0").any isPackerBuild = false ∧
     terminated (processImage envCopy cfg0 "splunk-v3-0-0") = false) ∧
    (processImage envMissing cfg0 "splunk-v3-0-0" =
      [Effect.logInfo ("Image " ++ "splunk-v3-0-0" ++ " is not available in region "
         ++ cfg0.region),
       Effect.logInfo ("Checking if image " ++ "splunk-v3-0-0"
         ++ " is available in other regions."),
       Effect.logInfo ("Image " ++ "splunk-v3-0-0" ++ " need to be built with packer.")]
      ++ packer "splunk-v3-0-0" ∧
     (processImage envMissing cfg0 "splunk-v3-0-0").any isCopyImage = false) ∧
    (processImage envAvail cfg0 "splunk-v3-0-0" =
      [Effect.logInfo ("Image " ++ "splunk-v3-0-0" ++ " is available in region "
         ++ cfg0.region)] ∧
     (processImage envAvail cfg0 "splunk-v3-0-0").any isCopyImage = false ∧
     (processImage envAvail cfg0 "splunk-v3-0-0").any isPackerBuild = false) :=
  ⟨((build_image_decision_tree envCopy cfg0 "splunk-v3-0-0").1 rfl).1
      { image_id := "ami-123", region := "us-west-1" } rfl,
   ((build_image_decision_tree envMissing cfg0 "splunk-v3-0-0").1 rfl).2 rfl,
   (build_image_decision_tree envAvail cfg0 "splunk-v3-0-0").2 rfl⟩

/-- Witness for C2: the concrete image list and build trace when every
image is available. -/
theorem build_images_then_apply_then_show_witness :
    buildImages cfg0 =
      [cfg0.splunk_image] ++ cfg0.windows_servers.map WindowsServer.image
        ++ cfg0.linux_servers.map LinuxServer.image
        ++ (if cfg0.nginx_server_flag = "1" then [cfg0.nginx_image] else []) ∧
    build envAvail cfg0 =
      [Effect.logInfo "[action] > build\n",
       Effect.logInfo ("Check if images are available in region " ++ cfg0.region)]
      ++ (buildImages cfg0).flatMap (processImage envAvail cfg0)
      ++ ([Effect.terraformApply]
          ++ (if envAvail.terraform_apply_rc = 0 then
                [Effect.logInfo "attack_range has been built using terraform successfully"]
              else []))
      ++ showTrace envAvail cfg0 :=
  build_images_then_apply_then_show envAvail cfg0 (by decide)

/-- Witness for C3: both the failing and the passing region check. -/
theorem init_region_validation_witness :
    initController envBadRegion cfg0 =
      ([Effect.logError "AWS cli region and region in config file are not the same.",
        Effect.exitProcess 1], none) ∧
    initController envAvail cfg0 = ([], some ⟨"../terraform/aws", 15⟩) :=
  ⟨(init_region_validation envBadRegion cfg0).1 rfl,
   (init_region_validation envAvail cfg0).2 rfl⟩

/-- Witness for C4: a splunk image, a windows-2019 image, and an
unsupported image name. -/
theorem packer_family_selection_witness :
    packer "splunk-v3-0-0" =
      [Effect.logInfo ("Create golden image for " ++ "splunk-v3-0-0"
         ++ ". This can take up to 30 minutes.\n"),
       Effect.packerBuild "amazon-ebs.splunk-ubuntu-18-04"
         "packer/splunk_server/splunk-ubuntu.pkr.hcl"] ∧
    packer "windows-2019-v2" =
      [Effect.logInfo ("Create golden image for " ++ "windows-2019-v2"
         ++ ". This can take up to 30 minutes.\n"),
       Effect.packerBuild "amazon-ebs.windows"
         "packer/windows_server/windows_2019.pkr.hcl"] ∧
    (packer "ubuntu-18-04" =
      [Effect.logInfo ("Create golden image for " ++ "ubuntu-18-04"
         ++ ". This can take up to 30 minutes.\n"),
       Effect.logError "Image not supported.", Effect.exitProcess 1] ∧
     (packer "ubuntu-18-04").any isPackerBuild = false) :=
  ⟨(packer_family_selection "splunk-v3-0-0").1 (by decide),
   (packer_family_selection "windows-2019-v2").2.2.2.2.1 (by decide),
   (packer_family_selection "ubuntu-18-04").2.2.2.2.2
     (by decide) (by decide) (by decide) (by decide) (by decide)⟩

/-- Witness for C6: both engine values at concrete arguments. -/
theorem simulate_engine_dispatch_witness :
    simulate "ART" "host1" "T1003.001" "pbook" =
      [Effect.logInfo "[action] > simulate\n",
       Effect.artSimulate "host1" "T1003.001"] ∧
    simulate "PurpleSharp" "host1" "T1003.001" "pbook" =
      [Effect.logInfo "[action] > simulate\n",
       Effect.purplesharpSimulate "host1" "T1003.001" "pbook"] :=
  ⟨(simulate_engine_dispatch "ART" "host1" "T1003.001" "pbook").1 rfl,
   (simulate_engine_dispatch "PurpleSharp" "host1" "T1003.001" "pbook").2 rfl⟩

/-- Witness for C7: the empty-inventory error rendering at a concrete
environment. -/
theorem show_inventory_rendering_witness :
    showTrace envAvail cfg0 =
      [Effect.logInfo "[action] > show\n",
       Effect.queryInstances cfg0.key_name cfg0.attack_range_name cfg0.region,
       Effect.printLine "",
       Effect.printLine "Status Virtual Machines\n",
       Effect.printLine "ERROR: Can\x27t find configured Attack Range Instances"] :=
  (show_inventory_rendering envAvail cfg0).2.2.2 rfl

/-- Witness for C9: an engine value that is neither "ART" nor
"PurpleSharp". -/
theorem simulate_unknown_engine_witness :
    simulate "Caldera" "host1" "T1003.001" "pbook" =
      [Effect.logInfo "[action] > simulate\n"] :=
  simulate_unknown_engine "Caldera" "host1" "T1003.001" "pbook" (by decide) (by decide)

/-- Witness for C10: destroy reporting at two return codes and build
reporting at a concrete environment. -/
theorem destroy_reports_unconditionally_witness :
    destroy { envAvail with terraform_destroy_rc := 7 } cfg0 = destroy envAvail cfg0 ∧
    Effect.logInfo "attack_range has been destroy using terraform successfully"
      ∈ destroy envAvail cfg0 ∧
    (Effect.logInfo "attack_range has been built using terraform successfully"
      ∈ build envAvail cfg0 ↔ envAvail.terraform_apply_rc = 0) :=
  ⟨(destroy_reports_unconditionally envAvail cfg0 (by decide)).1 7,
   (destroy_reports_unconditionally envAvail cfg0 (by decide)).2.1,
   (destroy_reports_unconditionally envAvail cfg0 (by decide)).2.2⟩

end AttackRange
